import Mathlib

/-!
Verification of the manus-lite agent core: region selector, session
registry (stagehand manager), step executor and agent loop, shallowly
embedded from the TypeScript source.
-/

namespace ManusLite

/-! ### Region Selector (src/app/api/session/route.ts) -/

/-- The four Browserbase regions (`type BrowserbaseRegion`). -/
inductive BrowserbaseRegion where
  | usWest2
  | usEast1
  | euCentral1
  | apSoutheast1
  deriving DecidableEq, Repr

/-- `exactTimezoneMap`: exact timezone matches for east coast cities. -/
def exactTimezoneMap : List (String × BrowserbaseRegion) :=
  [ ("America/New_York", .usEast1),
    ("America/Detroit", .usEast1),
    ("America/Toronto", .usEast1),
    ("America/Montreal", .usEast1),
    ("America/Boston", .usEast1),
    ("America/Chicago", .usEast1) ]

/-- `prefixToRegion`: timezone-prefix based region mapping. -/
def prefixToRegion : List (String × BrowserbaseRegion) :=
  [ ("America", .usWest2),
    ("US", .usWest2),
    ("Canada", .usWest2),
    ("Europe", .euCentral1),
    ("Africa", .euCentral1),
    ("Asia", .apSoutheast1),
    ("Australia", .apSoutheast1),
    ("Pacific", .apSoutheast1) ]

/-- One entry of `offsetRanges` (`{ min, max, region }`, inclusive bounds).
The JS numbers are modelled as rationals since the computed hour offset
need not be an integer. -/
structure OffsetRange where
  min : ℚ
  max : ℚ
  region : BrowserbaseRegion
  deriving DecidableEq, Repr

/-- `offsetRanges`: offset ranges to regions (inclusive bounds). -/
def offsetRanges : List OffsetRange :=
  [ ⟨-24, -4, .usWest2⟩,
    ⟨-3, 4, .euCentral1⟩,
    ⟨5, 24, .apSoutheast1⟩ ]

/-- The range test `hourOffset >= range.min && hourOffset <= range.max`. -/
def inRange (hourOffset : ℚ) (r : OffsetRange) : Bool :=
  decide (r.min ≤ hourOffset) && decide (hourOffset ≤ r.max)

/-- All ranges matching a given hour offset (`offsetRanges.find` examines
exactly the ranges this filter keeps). -/
def matchingRanges (hourOffset : ℚ) : List OffsetRange :=
  offsetRanges.filter (inRange hourOffset)

/-- `offsetRanges.find(...)?.region ?? "us-west-2"`: the region of the first
matching range, defaulting to `us-west-2`. -/
def findOffsetRegion (hourOffset : ℚ) : BrowserbaseRegion :=
  match offsetRanges.find? (inRange hourOffset) with
  | some r => r.region
  | none => .usWest2

/-- `timezone.split("/")[0]`: the text before the first `/`, or the whole
string when it has none. -/
def headSegment (s : String) : String :=
  String.mk (s.toList.takeWhile (fun c => !(c == '/')))

/-- `getClosestRegion(timezone?)`. The hour-offset computation (built from
`Date` and `Intl.DateTimeFormat`) is runtime-dependent and throws on an
unparseable timezone, which the surrounding `try/catch` maps to the default
region; it is abstracted as an oracle `offsetOf`, with `none` standing for
any thrown error. -/
def getClosestRegion (offsetOf : String → Option ℚ) (timezone : Option String) :
    BrowserbaseRegion :=
  match timezone with
  | none => .usWest2
  | some tz =>
    match exactTimezoneMap.lookup tz with
    | some r => r
    | none =>
      match prefixToRegion.lookup (headSegment tz) with
      | some r => r
      | none =>
        match offsetOf tz with
        | none => .usWest2
        | some hourOffset => findOffsetRegion hourOffset

/-! ### Session Registry (src/unnamed/part_000, the stagehand manager)

Stagehand handles are modelled by natural numbers handed out by a fresh
counter; the `Map<string, Stagehand>` is an association list observed
through `List.lookup`. `provisionCount` counts `new Stagehand` + `init`
attempts, and `log` records the `console.log`/`console.error` lines. -/

structure RegistryState where
  instances : List (String × Nat)
  nextHandle : Nat
  provisionCount : Nat
  log : List String
  deriving DecidableEq, Repr

/-- `Map.delete` on the sessionID key, observed up to `lookup`. -/
def mapDelete (m : List (String × Nat)) (sid : String) : List (String × Nat) :=
  m.filter (fun p => !(p.1 == sid))

/-- `getStagehandInstance(sessionID)`: return the cached handle, otherwise
construct a fresh instance and `init` it. Construction/`init` is external
and fallible, abstracted by `initRes` (`.error e` means `init` threw `e`,
which propagates to the caller since nothing catches it here). -/
def getStagehandInstance (initRes : Except String Unit) (sid : String)
    (st : RegistryState) : Except String Nat × RegistryState :=
  match st.instances.lookup sid with
  | some h => (.ok h, st)
  | none =>
    let h := st.nextHandle
    match initRes with
    | .error e =>
        (.error e, { st with nextHandle := h + 1,
                             provisionCount := st.provisionCount + 1 })
    | .ok _ =>
        (.ok h, { st with instances := (sid, h) :: st.instances,
                          nextHandle := h + 1,
                          provisionCount := st.provisionCount + 1,
                          log := st.log ++
                            ["Created new Stagehand instance for session: " ++ sid] })

/-- `closeStagehandInstance(sessionID)`: if an instance is tracked, `await
stagehand.close()` and then delete the map entry, both inside a `try` whose
`catch` only logs. `closeOk` abstracts whether the external `close()` call
succeeds; on failure the `delete` statement is never reached. The function
itself never throws. -/
def closeStagehandInstance (closeOk : Bool) (sid : String)
    (st : RegistryState) : RegistryState :=
  match st.instances.lookup sid with
  | none => st
  | some _ =>
    if closeOk then
      { st with instances := mapDelete st.instances sid,
                log := st.log ++
                  ["Closed Stagehand instance for session: " ++ sid] }
    else
      { st with log := st.log ++
                  ["Error closing Stagehand instance for session: " ++ sid] }

/-! ### Concurrent view of `getStagehandInstance`

JavaScript interleaves `async` bodies only at `await`; the body of
`getStagehandInstance` runs atomically from the `Map.get` up to the
`await stagehand.init()`, and again from after that `await` (the
`Map.set` and return). A task for one call is therefore a two-segment
program, and an interleaving is a schedule of task indices. -/

inductive TaskPhase where
  | start
  | initing (h : Nat)
  | ended (h : Nat)
  deriving DecidableEq, Repr

structure ConcState where
  instances : List (String × Nat)
  nextHandle : Nat
  provisionCount : Nat
  tasks : List (String × TaskPhase)
  deriving DecidableEq, Repr

/-- Run the next atomic segment of task `i` (a call of
`getStagehandInstance` for the task's sessionID). Segment one: `Map.get`,
then either finish with the cached handle or construct an instance and
suspend at `await init()`. Segment two: `Map.set` and return the freshly
built handle. -/
def stepTask (st : ConcState) (i : Nat) : ConcState :=
  match st.tasks[i]? with
  | none => st
  | some (sid, phase) =>
    match phase with
    | .start =>
      match st.instances.lookup sid with
      | some h => { st with tasks := st.tasks.set i (sid, .ended h) }
      | none =>
        { st with nextHandle := st.nextHandle + 1,
                  provisionCount := st.provisionCount + 1,
                  tasks := st.tasks.set i (sid, .initing st.nextHandle) }
    | .initing h =>
      { st with instances := (sid, h) :: st.instances,
                tasks := st.tasks.set i (sid, .ended h) }
    | .ended _ => st

/-- Run a whole schedule of task indices. -/
def runSchedule (st : ConcState) (sched : List Nat) : ConcState :=
  sched.foldl stepTask st

/-- Two concurrent `getStagehandInstance` calls for the same sessionID,
starting from an empty registry. -/
def twoCallsInit (sid : String) : ConcState :=
  { instances := [], nextHandle := 0, provisionCount := 0,
    tasks := [(sid, .start), (sid, .start)] }

/-! ### Step Executor (`runStagehand` and the `EXECUTE_STEP` handler of
the agent route, second document of src/app/page.tsx) -/

/-- The closed tool enumeration of `runStagehand`'s `method` parameter;
`Step.tool` uses the same enumeration minus `SCREENSHOT`. -/
inductive Tool where
  | GOTO
  | ACT
  | EXTRACT
  | OBSERVE
  | CLOSE
  | WAIT
  | NAVBACK
  | USER_INPUT
  | SCREENSHOT
  deriving DecidableEq, Repr

/-- A decided step (`type Step` in the agent route, plus the client-side
optional `stepNumber` of `BrowserStep`). -/
structure Step where
  text : String
  reasoning : String
  tool : Tool
  instruction : String
  stepNumber : Option Nat
  deriving DecidableEq, Repr

/-- One invocation of the underlying browser capability (a `page.*` call or
a CDP screenshot). -/
inductive BrowserOp where
  | goto (url : String)
  | act (instruction : String)
  | extract (instruction : String)
  | observe (instruction : String)
  | goBack
  | screenshot
  deriving DecidableEq, Repr

/-- Results a `runStagehand` call can return. -/
inductive RunResult where
  | extraction (payload : String)
  | observation (payload : String)
  | screenshotData (data : String)
  | userInput (status message : String)
  deriving DecidableEq, Repr

/-- The external browser capability: each operation either succeeds (with
its payload) or throws. -/
structure Browser where
  goto : String → Except String Unit
  act : String → Except String Unit
  extract : String → Except String String
  observe : String → Except String String
  goBack : Except String Unit
  screenshot : Except String String

/-- The `page.*` call performed by `runStagehand`'s `switch` for a
browser-touching method, together with the operation it invokes. JS's
`instruction!` on a missing instruction is modelled by `Option.getD ""`. -/
def browserCall (br : Browser) (method : Tool) (instruction : Option String) :
    Except String (Option RunResult) × List BrowserOp :=
  match method with
  | .GOTO =>
      ((br.goto (instruction.getD "")).map (fun _ => none),
       [.goto (instruction.getD "")])
  | .ACT =>
      ((br.act (instruction.getD "")).map (fun _ => none),
       [.act (instruction.getD "")])
  | .EXTRACT =>
      ((br.extract (instruction.getD "")).map (fun s => some (.extraction s)),
       [.extract (instruction.getD "")])
  | .OBSERVE =>
      ((br.observe (instruction.getD "")).map (fun s => some (.observation s)),
       [.observe (instruction.getD "")])
  | .NAVBACK =>
      (br.goBack.map (fun _ => none), [.goBack])
  | .SCREENSHOT =>
      (br.screenshot.map (fun s => some (.screenshotData s)), [.screenshot])
  | _ => (.ok none, [])

/-- `instruction || "请处理验证码或登录信息"`: an absent or empty instruction
is falsy in JS and yields the generic manual-handling message. -/
def userInputMessage (instruction : Option String) : String :=
  match instruction with
  | none => "请处理验证码或登录信息"
  | some s => if s = "" then "请处理验证码或登录信息" else s

/-- Executor state: the registry, the trace of browser operations invoked,
and the number of `closeStagehandInstance` invocations (release calls). -/
structure ExecState where
  registry : RegistryState
  trace : List BrowserOp
  releaseCalls : Nat
  deriving DecidableEq, Repr

/-- Release the session: one `closeStagehandInstance(sessionID)` call. -/
def releaseSession (closeOk : Bool) (sid : String) (st : ExecState) : ExecState :=
  { st with registry := closeStagehandInstance closeOk sid st.registry,
            releaseCalls := st.releaseCalls + 1 }

/-- `runStagehand({sessionID, method, instruction})`: acquire the instance
(outside the `try`, so acquisition failures propagate without a release),
then dispatch on `method`; any error thrown inside the `switch` is caught,
the session is released, and the same error is rethrown. `CLOSE` releases
the session; `WAIT` only sleeps; `USER_INPUT` returns its signal object
without touching the browser. -/
def runStagehand (br : Browser) (initRes : Except String Unit) (closeOk : Bool)
    (sid : String) (method : Tool) (instruction : Option String)
    (st : ExecState) : Except String (Option RunResult) × ExecState :=
  match getStagehandInstance initRes sid st.registry with
  | (.error e, reg1) => (.error e, { st with registry := reg1 })
  | (.ok _, reg1) =>
    let st1 : ExecState := { st with registry := reg1 }
    match method with
    | .CLOSE => (.ok none, releaseSession closeOk sid st1)
    | .WAIT => (.ok none, st1)
    | .USER_INPUT =>
        (.ok (some (.userInput "waiting_for_user" (userInputMessage instruction))),
         st1)
    | m =>
      let call := browserCall br m instruction
      let st2 : ExecState := { st1 with trace := st1.trace ++ call.2 }
      match call.1 with
      | .ok r => (.ok r, st2)
      | .error e => (.error e, releaseSession closeOk sid st2)

/-- The JSON body the `EXECUTE_STEP` action answers with. -/
structure ExecuteResponse where
  success : Bool
  message : Option String
  result : Option RunResult
  errorDetail : Option String
  done : Bool
  deriving DecidableEq, Repr

/-- The `EXECUTE_STEP` branch of the agent route's `POST` handler: a
`USER_INPUT` step is answered immediately (before `runStagehand` is ever
called); any other step runs `runStagehand`, a thrown error being answered
as a 500 with the error's message. -/
def executeStep (br : Browser) (initRes : Except String Unit) (closeOk : Bool)
    (sid : String) (step : Step) (st : ExecState) : ExecuteResponse × ExecState :=
  if step.tool = .USER_INPUT then
    ({ success := true,
       message := some (if step.instruction = "" then "请处理验证码或登录信息"
                        else step.instruction),
       result := none, errorDetail := none, done := false }, st)
  else
    match runStagehand br initRes closeOk sid step.tool (some step.instruction) st with
    | (.ok r, st') =>
        ({ success := true, message := none, result := r, errorDetail := none,
           done := step.tool = .CLOSE }, st')
    | (.error e, st') =>
        ({ success := false, message := none, result := none,
           errorDetail := some e, done := false }, st')

/-! ### Agent Loop (`initializeSession` in the ChatFeed component,
src/unnamed/part_001)

The client loop alternates Decision Engine calls (`GET_NEXT_STEP`) with
`EXECUTE_STEP` calls. After executing a `USER_INPUT` step it awaits a
promise whose resolver is stashed as `window.continueAfterUserInput`, so
the loop body is a transition system whose environment events are either
a decided step arriving or that resume callback firing. -/

inductive LoopPhase where
  | deciding
  | awaitingUserInput
  | terminated
  deriving DecidableEq, Repr

inductive LoopEvent where
  | decided (d : Step)
  | resume
  deriving DecidableEq, Repr

structure LoopState where
  phase : LoopPhase
  steps : List Step
  executed : List Step
  decideCalls : Nat
  deriving DecidableEq, Repr

/-- One iteration of the `while (true)` loop in `initializeSession`.
In the deciding phase a `GET_NEXT_STEP` answer is appended to the history
(with `stepNumber = steps.length + 1`) before anything else; if its tool
is `CLOSE` the loop breaks without an `EXECUTE_STEP` call; otherwise the
step is executed, and a `USER_INPUT` step then parks the loop on the
stashed resume callback. While parked, only the resume event does
anything; resuming returns to deciding with the history untouched. -/
def loopStep (st : LoopState) (ev : LoopEvent) : LoopState :=
  match st.phase, ev with
  | .deciding, .decided d =>
    let d' : Step := { d with stepNumber := some (st.steps.length + 1) }
    let st1 : LoopState :=
      { st with steps := st.steps ++ [d'], decideCalls := st.decideCalls + 1 }
    if d.tool = .CLOSE then { st1 with phase := .terminated }
    else
      let st2 : LoopState := { st1 with executed := st1.executed ++ [d'] }
      if d.tool = .USER_INPUT then { st2 with phase := .awaitingUserInput }
      else st2
  | .awaitingUserInput, .resume => { st with phase := .deciding }
  | _, _ => st

/-- The synthetic first step built by the `START` action from the
starting-URL collaborator's answer, numbered 1 by the client. -/
def startStep (url reasoning : String) : Step :=
  { text := "导航至 " ++ url, reasoning := reasoning, tool := .GOTO,
    instruction := url, stepNumber := some 1 }

/-- Loop state right after `START`: the synthetic `GOTO` step is in the
history and has been executed (the route runs it via `runStagehand`), and
the general loop is about to issue its first `GET_NEXT_STEP`. -/
def initialLoopState (url reasoning : String) : LoopState :=
  { phase := .deciding, steps := [startStep url reasoning],
    executed := [startStep url reasoning], decideCalls := 0 }

/-- A whole run: `START`, then the loop driven by environment events. -/
def runAgent (url reasoning : String) (events : List LoopEvent) : LoopState :=
  (events.foldl loopStep (initialLoopState url reasoning))

/-- The ChatFeed effect watching `uiState.steps`: when the last recorded
step's tool is `CLOSE`, the session is deleted (`DELETE /api/session`,
which in local mode calls `closeStagehandInstance`). -/
def terminationRelease (closeOk : Bool) (sid : String) (st : LoopState)
    (reg : RegistryState) : RegistryState :=
  match st.steps.getLast? with
  | some s => if s.tool = .CLOSE then closeStagehandInstance closeOk sid reg else reg
  | none => reg

/-! ## Theorems -/

/-- Deleting a key removes it from the perspective of `lookup`. -/
theorem lookup_mapDelete (m : List (String × Nat)) (sid : String) :
    (mapDelete m sid).lookup sid = none := by
  induction m with
  | nil => rfl
  | cons p t ih =>
    obtain ⟨k, v⟩ := p
    by_cases hk : k = sid
    · subst hk
      simp only [mapDelete, List.filter_cons, beq_self_eq_true, Bool.not_true,
        Bool.false_eq_true, if_false] at ih ⊢
      exact ih
    · have hbeq : (k == sid) = false := beq_eq_false_iff_ne.mpr hk
      have hbeq2 : (sid == k) = false := beq_eq_false_iff_ne.mpr (Ne.symm hk)
      simp only [mapDelete, List.filter_cons, hbeq, Bool.not_false, if_true,
        List.lookup, hbeq2] at ih ⊢
      exact ih

/-- C1, counterexample: the offset −7/2 lies in [−24, 24] but matches none
of the three ranges — the ranges do not cover the span once non-integer
offsets are admitted (the open gaps (−4,−3) and (4,5) match no range), so
it is not the case that exactly one range matches every offset value in
[−24, 24]. -/
theorem c1_offset_cover_counterexample :
    ((-24 : ℚ) ≤ -7/2 ∧ (-7/2 : ℚ) ≤ 24) ∧ matchingRanges (-7/2) = [] := by
  refine ⟨⟨by norm_num, by norm_num⟩, ?_⟩
  simp only [matchingRanges, offsetRanges, inRange, List.filter_cons, List.filter_nil,
    Bool.and_eq_true, decide_eq_true_eq]
  norm_num

/-- C1 (amended): the three offset ranges are pairwise disjoint (at most
one matches any rational offset), they cover every integer offset of
[−24, 24] exactly once, the boundary offsets −4/−3 and 4/5 land in the
correct adjacent ranges, and a non-integer offset inside a gap such as
−7/2 matches no range and falls back to the default region us-west-2. -/
theorem c1_offset_ranges :
    (∀ q : ℚ, (matchingRanges q).length ≤ 1)
    ∧ (∀ n ∈ Finset.Icc (-24 : ℤ) 24, (matchingRanges (n : ℚ)).length = 1)
    ∧ (findOffsetRegion (-4) = .usWest2 ∧ findOffsetRegion (-3) = .euCentral1
       ∧ findOffsetRegion 4 = .euCentral1 ∧ findOffsetRegion 5 = .apSoutheast1)
    ∧ findOffsetRegion (-7/2) = .usWest2 := by
  refine ⟨?_, by decide, by decide, ?_⟩
  · intro q
    simp only [matchingRanges, offsetRanges, inRange, List.filter_cons, List.filter_nil,
      Bool.and_eq_true, decide_eq_true_eq]
    split_ifs <;> simp_all <;> linarith
  · simp only [findOffsetRegion, offsetRanges, inRange, List.find?, Bool.and_eq_true]
    norm_num

/-- C1, witness: the amended theorem at the integer offset 0. -/
theorem c1_offset_ranges_witness :
    (0 : ℤ) ∈ Finset.Icc (-24 : ℤ) 24
    ∧ (matchingRanges ((0 : ℤ) : ℚ)).length = 1 :=
  ⟨by decide, c1_offset_ranges.2.1 0 (by decide)⟩

/-- C6: `getClosestRegion` is total by construction and always returns one
of the four known regions; an absent timezone yields the default us-west-2,
and a timezone matching no table whose offset computation throws (the
oracle answers `none`, the internal error the `catch` swallows) also
yields us-west-2. -/
theorem c6_getClosestRegion_total :
    (∀ offsetOf tz, getClosestRegion offsetOf tz = .usWest2
       ∨ getClosestRegion offsetOf tz = .usEast1
       ∨ getClosestRegion offsetOf tz = .euCentral1
       ∨ getClosestRegion offsetOf tz = .apSoutheast1)
    ∧ (∀ offsetOf, getClosestRegion offsetOf none = .usWest2)
    ∧ (∀ offsetOf tz, exactTimezoneMap.lookup tz = none →
        prefixToRegion.lookup (headSegment tz) = none →
        offsetOf tz = none →
        getClosestRegion offsetOf (some tz) = .usWest2) := by
  refine ⟨?_, fun _ => rfl, ?_⟩
  · intro f tz
    cases h : getClosestRegion f tz <;> simp
  · intro f tz h1 h2 h3
    simp [getClosestRegion, h1, h2, h3]

/-- C6, witness: the unparseable timezone "Mars/Olympus" with a throwing
offset computation yields the default region. -/
theorem c6_getClosestRegion_total_witness :
    exactTimezoneMap.lookup "Mars/Olympus" = none
    ∧ prefixToRegion.lookup (headSegment "Mars/Olympus") = none
    ∧ (fun _ => (none : Option ℚ)) "Mars/Olympus" = none
    ∧ getClosestRegion (fun _ => none) (some "Mars/Olympus") = .usWest2 :=
  ⟨by decide, by decide, rfl,
   c6_getClosestRegion_total.2.2 (fun _ => none) "Mars/Olympus"
     (by decide) (by decide) rfl⟩

/-- C9: every entry of the exact east-coast table maps to us-east-1 under
`getClosestRegion`, whatever the offset oracle; the exact rule precedes the
prefix rule, since America/New_York yields us-east-1 although the prefix
"America" maps to us-west-2. -/
theorem c9_exact_table :
    (∀ offsetOf : String → Option ℚ, ∀ p ∈ exactTimezoneMap,
        getClosestRegion offsetOf (some p.1) = .usEast1)
    ∧ prefixToRegion.lookup "America" = some .usWest2
    ∧ (∀ offsetOf : String → Option ℚ,
        getClosestRegion offsetOf (some "America/New_York") = .usEast1) := by
  refine ⟨?_, rfl, fun _ => rfl⟩
  intro f p hp
  fin_cases hp <;> rfl

/-- C9, witness: the table entry America/New_York. -/
theorem c9_exact_table_witness :
    ("America/New_York", BrowserbaseRegion.usEast1) ∈ exactTimezoneMap
    ∧ getClosestRegion (fun _ => none) (some "America/New_York")
        = .usEast1 :=
  ⟨by decide,
   c9_exact_table.1 (fun _ => none) ("America/New_York", .usEast1) (by decide)⟩

/-- A release whose underlying `close()` succeeds leaves no entry for the
session, whether or not one was tracked. -/
theorem lookup_closeStagehandInstance_true (reg : RegistryState) (sid : String) :
    (closeStagehandInstance true sid reg).instances.lookup sid = none := by
  unfold closeStagehandInstance
  cases hl : reg.instances.lookup sid with
  | none => simpa using hl
  | some h => simp [lookup_mapDelete]

/-- C2, counterexample: releasing the tracked session "s" while the
underlying `close()` fails leaves the registry entry in the map — the
`delete` sits after the awaited `close()` inside the `try`, so it is
skipped on failure and the mapping entry is leaked. -/
theorem c2_release_failure_counterexample :
    (closeStagehandInstance false "s"
        { instances := [("s", 0)], nextHandle := 1, provisionCount := 1,
          log := [] }).instances.lookup "s" = some 0 := by
  decide

/-- C2 (amended): when release is called on a tracked entry and the
handle's `close()` fails, the entry is retained, not removed (it is
removed only when `close()` succeeds), while the failure is logged and not
propagated — `closeStagehandInstance` returns normally either way. -/
theorem c2_release_failure :
    ∀ (st : RegistryState) (sid : String) (h : Nat),
      st.instances.lookup sid = some h →
      (closeStagehandInstance false sid st).instances = st.instances
      ∧ (closeStagehandInstance false sid st).log
          = st.log ++ ["Error closing Stagehand instance for session: " ++ sid]
      ∧ (closeStagehandInstance true sid st).instances.lookup sid = none := by
  intro st sid h hl
  refine ⟨?_, ?_, ?_⟩ <;>
    simp [closeStagehandInstance, hl, lookup_mapDelete]

/-- C2, witness: the amended theorem at a one-entry registry. -/
theorem c2_release_failure_witness :
    ([("s", 0)].lookup "s" = some 0)
    ∧ (closeStagehandInstance false "s"
        { instances := [("s", 0)], nextHandle := 1, provisionCount := 1,
          log := [] }).instances = [("s", 0)] :=
  ⟨by decide,
   (c2_release_failure
      { instances := [("s", 0)], nextHandle := 1, provisionCount := 1,
        log := [] } "s" 0 (by decide)).1⟩

/-- C3, counterexample: two concurrent `getStagehandInstance` calls for
the same session "s" under the interleaving [0, 1, 0, 1] (both calls read
the empty map before either `init` resolves) perform two provisioning
attempts and end with distinct handles 0 and 1 — not one provisioning and
a shared handle. -/
theorem c3_concurrent_acquire_counterexample :
    (runSchedule (twoCallsInit "s") [0, 1, 0, 1]).provisionCount = 2
    ∧ (runSchedule (twoCallsInit "s") [0, 1, 0, 1]).tasks
        = [("s", .ended 0), ("s", .ended 1)] := by
  exact ⟨rfl, rfl⟩

/-- C3 (amended): same-identifier calls do not serialize. A call that
finds a cached entry performs no provisioning attempt and returns that
entry's handle, so calls that run to completion one after the other yield
exactly one provisioning and a shared handle; but a concurrent call that
reads the map before the first caller's `init` resolves provisions its own
instance, so N concurrent callers may provision up to N times and receive
distinct handles. -/
theorem c3_concurrent_acquire :
    (∀ (st : ConcState) (i : Nat) (sid : String) (h : Nat),
        st.tasks[i]? = some (sid, .start) →
        st.instances.lookup sid = some h →
        stepTask st i = { st with tasks := st.tasks.set i (sid, .ended h) })
    ∧ (runSchedule (twoCallsInit "s") [0, 0, 1, 1]).provisionCount = 1
    ∧ (runSchedule (twoCallsInit "s") [0, 0, 1, 1]).tasks
        = [("s", .ended 0), ("s", .ended 0)] := by
  refine ⟨?_, rfl, rfl⟩
  intro st i sid h hget hl
  simp [stepTask, hget, hl]

/-- C3, witness: the amended theorem's cached-hit clause at a one-task
state over a registry already holding "s". -/
theorem c3_concurrent_acquire_witness :
    ([(("s" : String), TaskPhase.start)][0]? = some ("s", .start))
    ∧ ([(("s" : String), (7 : Nat))].lookup "s" = some 7)
    ∧ stepTask
        { instances := [("s", 7)], nextHandle := 8, provisionCount := 1,
          tasks := [("s", .start)] } 0
      = { instances := [("s", 7)], nextHandle := 8, provisionCount := 1,
          tasks := [("s", .ended 7)] } :=
  ⟨by decide, by decide, by
    have := c3_concurrent_acquire.1
      { instances := [("s", 7)], nextHandle := 8, provisionCount := 1,
        tasks := [("s", .start)] } 0 "s" 7 (by decide) (by decide)
    simpa using this⟩

/-- C10: a provisioning failure inside `getStagehandInstance` for an
untracked identifier adds no entry to the map (the attempt is counted but
the map is unchanged) and the `init` error propagates to the caller; a
subsequent call for the same identifier therefore misses the cache again
and provisions afresh, receiving a fresh working handle. -/
theorem c10_provisioning_failure_atomic :
    ∀ (sid : String) (st : RegistryState) (e : String),
      st.instances.lookup sid = none →
      (getStagehandInstance (.error e) sid st).1 = .error e
      ∧ (getStagehandInstance (.error e) sid st).2.instances = st.instances
      ∧ (getStagehandInstance (.error e) sid st).2.provisionCount
          = st.provisionCount + 1
      ∧ (getStagehandInstance (.ok ()) sid
            (getStagehandInstance (.error e) sid st).2).1
          = .ok (getStagehandInstance (.error e) sid st).2.nextHandle
      ∧ (getStagehandInstance (.ok ()) sid
            (getStagehandInstance (.error e) sid st).2).2.instances.lookup sid
          = some (getStagehandInstance (.error e) sid st).2.nextHandle := by
  intro sid st e hl
  refine ⟨?_, ?_, ?_, ?_, ?_⟩ <;>
    simp [getStagehandInstance, hl, List.lookup]

/-- C10, witness: a failed provisioning on the empty registry. -/
theorem c10_provisioning_failure_atomic_witness :
    (([] : List (String × Nat)).lookup "s" = none)
    ∧ (getStagehandInstance (.error "init failed") "s"
        { instances := [], nextHandle := 0, provisionCount := 0,
          log := [] }).2.instances = [] :=
  ⟨by decide,
   (c10_provisioning_failure_atomic "s"
      { instances := [], nextHandle := 0, provisionCount := 0, log := [] }
      "init failed" (by decide)).2.1⟩

/-- A release whose underlying `close()` fails never changes the map, only
the log: the `delete` is unreachable from the `catch`. -/
theorem instances_closeStagehandInstance_false (reg : RegistryState)
    (sid : String) :
    (closeStagehandInstance false sid reg).instances = reg.instances := by
  unfold closeStagehandInstance
  cases hl : reg.instances.lookup sid <;> simp

/-- C4, counterexample: the browser capability throws during a GOTO on the
tracked session "s" and the handle's own `close()` fails too; `runStagehand`
re-signals the error, but the registry entry is still present afterwards —
the release leaks the mapping entry (the `delete` sits after the awaited
`close()` in its `try`), so the claim's "no leaked registry entry"
conjunct fails. -/
theorem c4_execution_failure_counterexample :
    (runStagehand
        { goto := fun _ => .error "boom", act := fun _ => .ok (),
          extract := fun _ => .ok "", observe := fun _ => .ok "",
          goBack := .ok (), screenshot := .ok "" } (.ok ()) false "s" .GOTO
        (some "u")
        { registry := { instances := [("s", 0)], nextHandle := 1,
                        provisionCount := 1, log := [] },
          trace := [], releaseCalls := 0 }).1 = .error "boom"
    ∧ (runStagehand
        { goto := fun _ => .error "boom", act := fun _ => .ok (),
          extract := fun _ => .ok "", observe := fun _ => .ok "",
          goBack := .ok (), screenshot := .ok "" } (.ok ()) false "s" .GOTO
        (some "u")
        { registry := { instances := [("s", 0)], nextHandle := 1,
                        provisionCount := 1, log := [] },
          trace := [], releaseCalls := 0 }).2.registry.instances.lookup "s"
        = some 0 :=
  ⟨rfl, rfl⟩

/-- C4 (amended): when the browser capability throws during a GOTO/ACT/
EXTRACT/OBSERVE/NAVBACK step, `runStagehand` invokes the session release
exactly once (one `closeStagehandInstance` call, no double-close), the
failing operation is invoked exactly once and never retried, and the same
error is re-signaled to the caller; the registry entry is removed when the
handle's `close()` succeeds, but when the `close()` also fails the entry
remains tracked (the release only logs that failure, as in C2). -/
theorem c4_execution_failure_releases :
    ∀ (br : Browser) (sid : String) (method : Tool) (instruction : Option String)
      (st : ExecState) (e : String) (closeOk : Bool),
      method ∈ [Tool.GOTO, .ACT, .EXTRACT, .OBSERVE, .NAVBACK] →
      (browserCall br method instruction).1 = .error e →
      (runStagehand br (.ok ()) closeOk sid method instruction st).1 = .error e
      ∧ (runStagehand br (.ok ()) closeOk sid method instruction
            st).2.releaseCalls = st.releaseCalls + 1
      ∧ (runStagehand br (.ok ()) closeOk sid method instruction st).2.trace
          = st.trace ++ (browserCall br method instruction).2
      ∧ (closeOk = true →
          (runStagehand br (.ok ()) closeOk sid method instruction
              st).2.registry.instances.lookup sid = none)
      ∧ (closeOk = false →
          ((runStagehand br (.ok ()) closeOk sid method instruction
              st).2.registry.instances.lookup sid).isSome = true) := by
  intro br sid method instruction st e closeOk hm hcall
  have hclose : ∀ reg : RegistryState,
      (closeStagehandInstance true sid reg).instances.lookup sid = none :=
    fun reg => lookup_closeStagehandInstance_true reg sid
  have hcloseF : ∀ reg : RegistryState,
      (closeStagehandInstance false sid reg).instances = reg.instances :=
    fun reg => instances_closeStagehandInstance_false reg sid
  fin_cases hm <;> cases hl : st.registry.instances.lookup sid <;>
    cases closeOk <;>
      simp [runStagehand, getStagehandInstance, hl, hcall, releaseSession,
        hclose, hcloseF, List.lookup]

/-- C4, witness: a browser whose `goto` throws "boom" on a fresh
executor state. -/
theorem c4_execution_failure_releases_witness :
    Tool.GOTO ∈ [Tool.GOTO, .ACT, .EXTRACT, .OBSERVE, .NAVBACK]
    ∧ (browserCall
        { goto := fun _ => .error "boom", act := fun _ => .ok (),
          extract := fun _ => .ok "", observe := fun _ => .ok "",
          goBack := .ok (), screenshot := .ok "" } .GOTO (some "u")).1
        = .error "boom"
    ∧ (runStagehand
        { goto := fun _ => .error "boom", act := fun _ => .ok (),
          extract := fun _ => .ok "", observe := fun _ => .ok "",
          goBack := .ok (), screenshot := .ok "" } (.ok ()) true "s" .GOTO
        (some "u")
        { registry := { instances := [], nextHandle := 0, provisionCount := 0,
                        log := [] },
          trace := [], releaseCalls := 0 }).1 = .error "boom" :=
  ⟨by decide, rfl,
   (c4_execution_failure_releases
      { goto := fun _ => .error "boom", act := fun _ => .ok (),
        extract := fun _ => .ok "", observe := fun _ => .ok "",
        goBack := .ok (), screenshot := .ok "" } "s" .GOTO (some "u")
      { registry := { instances := [], nextHandle := 0, provisionCount := 0,
                      log := [] },
        trace := [], releaseCalls := 0 } "boom" true (by decide) rfl).1⟩

/-- C7: executing a USER_INPUT step never touches the browser capability:
the EXECUTE_STEP handler answers immediately with success and the step's
instruction (or the generic manual-handling message when it is empty),
leaving the executor state untouched — no browser operation, no release;
and `runStagehand`'s own USER_INPUT arm returns the pause signal with that
message while invoking no browser operation and no release. -/
theorem c7_user_input_pure :
    ∀ (br : Browser) (initRes : Except String Unit) (closeOk : Bool)
      (sid : String) (step : Step) (st : ExecState),
      step.tool = .USER_INPUT →
      executeStep br initRes closeOk sid step st
        = ({ success := true,
             message := some (if step.instruction = "" then "请处理验证码或登录信息"
                              else step.instruction),
             result := none, errorDetail := none, done := false }, st)
      ∧ (runStagehand br (.ok ()) closeOk sid .USER_INPUT
            (some step.instruction) st).1
          = .ok (some (.userInput "waiting_for_user"
              (userInputMessage (some step.instruction))))
      ∧ (runStagehand br (.ok ()) closeOk sid .USER_INPUT
            (some step.instruction) st).2.trace = st.trace
      ∧ (runStagehand br (.ok ()) closeOk sid .USER_INPUT
            (some step.instruction) st).2.releaseCalls = st.releaseCalls := by
  intro br initRes closeOk sid step st htool
  refine ⟨by simp [executeStep, htool], ?_, ?_, ?_⟩ <;>
    cases hl : st.registry.instances.lookup sid <;>
      simp [runStagehand, getStagehandInstance, hl]

/-- C7, witness: a USER_INPUT step with empty instruction yields the
generic manual-handling message and leaves the state untouched. -/
theorem c7_user_input_pure_witness :
    (Step.mk "t" "r" .USER_INPUT "" none).tool = .USER_INPUT
    ∧ executeStep
        { goto := fun _ => .ok (), act := fun _ => .ok (),
          extract := fun _ => .ok "", observe := fun _ => .ok "",
          goBack := .ok (), screenshot := .ok "" } (.ok ()) true "s"
        (Step.mk "t" "r" .USER_INPUT "" none)
        { registry := { instances := [], nextHandle := 0, provisionCount := 0,
                        log := [] },
          trace := [], releaseCalls := 0 }
      = ({ success := true, message := some "请处理验证码或登录信息",
           result := none, errorDetail := none, done := false },
         { registry := { instances := [], nextHandle := 0, provisionCount := 0,
                         log := [] },
           trace := [], releaseCalls := 0 }) := by
  refine ⟨rfl, ?_⟩
  have h := (c7_user_input_pure
      { goto := fun _ => .ok (), act := fun _ => .ok (),
        extract := fun _ => .ok "", observe := fun _ => .ok "",
        goBack := .ok (), screenshot := .ok "" } (.ok ()) true "s"
      (Step.mk "t" "r" .USER_INPUT "" none)
      { registry := { instances := [], nextHandle := 0, provisionCount := 0,
                      log := [] },
        trace := [], releaseCalls := 0 } rfl).1
  simpa using h

/-- C5: a CLOSE decision is appended to the run's history and the loop
terminates without executing it; a run whose very first general decision
is CLOSE ends with exactly two recorded steps — the synthetic GOTO start
step and the CLOSE step — with only the start step executed and the
session released at termination. -/
theorem c5_close_terminates :
    (∀ (st : LoopState) (d : Step), st.phase = .deciding → d.tool = .CLOSE →
        loopStep st (.decided d)
          = { st with
                steps := st.steps
                  ++ [{ d with stepNumber := some (st.steps.length + 1) }],
                decideCalls := st.decideCalls + 1,
                phase := .terminated })
    ∧ (∀ (url reasoning : String) (d : Step) (reg : RegistryState)
          (sid : String), d.tool = .CLOSE →
        (runAgent url reasoning [.decided d]).steps
            = [startStep url reasoning, { d with stepNumber := some 2 }]
        ∧ (runAgent url reasoning [.decided d]).steps.length = 2
        ∧ (runAgent url reasoning [.decided d]).executed
            = [startStep url reasoning]
        ∧ (runAgent url reasoning [.decided d]).phase = .terminated
        ∧ (terminationRelease true sid (runAgent url reasoning [.decided d])
              reg).instances.lookup sid = none) := by
  constructor
  · intro st d hphase htool
    simp [loopStep, hphase, htool]
  · intro url reasoning d reg sid htool
    refine ⟨?_, ?_, ?_, ?_, ?_⟩ <;>
      simp [runAgent, initialLoopState, loopStep, htool, terminationRelease,
        lookup_closeStagehandInstance_true]

/-- C5, witness: a run over session "s" whose first general decision is
CLOSE. -/
theorem c5_close_terminates_witness :
    (Step.mk "done" "goal met" .CLOSE "" none).tool = .CLOSE
    ∧ (runAgent "https://a.example" "start"
        [.decided (Step.mk "done" "goal met" .CLOSE "" none)]).steps.length = 2
    ∧ (terminationRelease true "s"
        (runAgent "https://a.example" "start"
          [.decided (Step.mk "done" "goal met" .CLOSE "" none)])
        { instances := [("s", 0)], nextHandle := 1, provisionCount := 1,
          log := [] }).instances.lookup "s" = none := by
  have h := c5_close_terminates.2 "https://a.example" "start"
    (Step.mk "done" "goal met" .CLOSE "" none)
    { instances := [("s", 0)], nextHandle := 1, provisionCount := 1, log := [] }
    "s" rfl
  exact ⟨rfl, h.2.1, h.2.2.2.2⟩

/-- C8: once the loop has executed a USER_INPUT step it is parked in the
awaiting state: every event other than the resume signal leaves the loop
state unchanged (in particular no decided step is processed and the
history does not grow), any sequence of such events changes nothing, and
the resume signal re-enters the deciding phase with the step history
unchanged. Executing a USER_INPUT decision from the deciding phase is what
enters the awaiting state. -/
theorem c8_user_input_suspends :
    (∀ (st : LoopState) (d : Step), st.phase = .deciding →
        d.tool = .USER_INPUT →
        (loopStep st (.decided d)).phase = .awaitingUserInput)
    ∧ (∀ (st : LoopState) (ev : LoopEvent), st.phase = .awaitingUserInput →
        ev ≠ .resume → loopStep st ev = st)
    ∧ (∀ (st : LoopState) (evs : List LoopEvent),
        st.phase = .awaitingUserInput → (∀ ev ∈ evs, ev ≠ .resume) →
        evs.foldl loopStep st = st)
    ∧ (∀ st : LoopState, st.phase = .awaitingUserInput →
        loopStep st .resume = { st with phase := .deciding }) := by
  have hfix : ∀ (st : LoopState) (ev : LoopEvent),
      st.phase = .awaitingUserInput → ev ≠ .resume → loopStep st ev = st := by
    intro st ev hphase hne
    cases ev with
    | decided d => simp [loopStep, hphase]
    | resume => exact absurd rfl hne
  refine ⟨?_, hfix, ?_, ?_⟩
  · intro st d hphase htool
    simp [loopStep, hphase, htool]
  · intro st evs hphase hall
    induction evs with
    | nil => rfl
    | cons ev rest ih =>
      rw [List.foldl_cons, hfix st ev hphase (hall ev (by simp))]
      exact ih fun e he => hall e (by simp [he])
  · intro st hphase
    simp [loopStep, hphase]

/-- C8, witness: a parked loop ignores a decided step and resumes into the
deciding phase with its single-step history unchanged. -/
theorem c8_user_input_suspends_witness :
    (LoopState.mk .awaitingUserInput [startStep "u" "r"] [startStep "u" "r"]
        1).phase = .awaitingUserInput
    ∧ loopStep
        (LoopState.mk .awaitingUserInput [startStep "u" "r"] [startStep "u" "r"] 1)
        (.decided (Step.mk "t" "why" .GOTO "x" none))
      = LoopState.mk .awaitingUserInput [startStep "u" "r"] [startStep "u" "r"] 1
    ∧ loopStep
        (LoopState.mk .awaitingUserInput [startStep "u" "r"] [startStep "u" "r"] 1)
        .resume
      = LoopState.mk .deciding [startStep "u" "r"] [startStep "u" "r"] 1 :=
  ⟨rfl,
   c8_user_input_suspends.2.1
     (LoopState.mk .awaitingUserInput [startStep "u" "r"] [startStep "u" "r"] 1)
     (.decided (Step.mk "t" "why" .GOTO "x" none)) rfl (by decide),
   c8_user_input_suspends.2.2.2
     (LoopState.mk .awaitingUserInput [startStep "u" "r"] [startStep "u" "r"] 1)
     rfl⟩

end ManusLite
